import Mathlib

/-!
Verification development for the Hugging Face inference client of
`go-ai-huggingface` (package `ai`, together with `internal/model/ai.go`).

The Go code is shallowly embedded:

* The network is abstracted as an oracle `upstream : Nat → AttemptOutcome β`
  giving the outcome of each HTTP attempt (`httpClient.Do` plus
  `io.ReadAll`), where `β` is the type of raw response bodies.
* Context cancellation is abstracted as `cancelAt : Nat → Bool`:
  `cancelAt k = true` means the context of the caller fires during the
  inter-retry wait that precedes attempt `k` (the `select` on
  `ctx.Done()` vs `time.After(RetryDelay)`).
* `json.Unmarshal` of a success body is abstracted as a caller-supplied
  decoder `β → Option _`; `none` models an unmarshalling error.
* Go strings are modelled as Lean `String`, lengths counted in
  characters; Go `float32`/`float64` fields are modelled as `Rat`
  (no claim depends on floating-point rounding, only on order and
  exact arithmetic).
* Wall-clock fields (`GeneratedAt`, `ProcessingMs`) and logging are
  omitted: they are real-time side channels with no claim about them.
  The duration of `RetryDelay` is likewise not modelled; the model
  counts the number of completed inter-retry waits instead.
-/

/-- Tagged value for the free-form JSON parameter maps
(`map[string]interface{}` in Go). -/
inductive ParamValue where
  | int (n : Int)
  | rat (q : Rat)
  | str (s : String)
  | bool (b : Bool)
deriving DecidableEq

/-- Outcome of one HTTP attempt inside `makeRequest`:
a transport failure of `httpClient.Do`, a failure of `io.ReadAll`
on the response body, or a complete HTTP response with its status
code and raw body. -/
inductive AttemptOutcome (β : Type) where
  | netErr (msg : String)
  | readErr (msg : String)
  | httpResp (status : Nat) (body : β)

/-- Structured view of the `error` values `makeRequest` can return.
`nil` mirrors the initial `var lastErr error` (Go `nil`); `cancelled`
mirrors `ctx.Err()`; `httpFailed`/`readFailed` mirror the two
`fmt.Errorf` wrappers for transport failures; `apiError` mirrors the
"API error (status): ..." error built from a non-200 response (the Go
code only differs in how it pretty-prints the body, via an optional
`HuggingFaceError` unmarshal, which is pure string formatting). -/
inductive ReqError (β : Type) where
  | nil
  | cancelled
  | httpFailed (msg : String)
  | readFailed (msg : String)
  | apiError (status : Nat) (body : β)

/-- The error `makeRequest` records for a failed attempt outcome. -/
def errOf {β : Type} : AttemptOutcome β → ReqError β
  | .netErr m => .httpFailed m
  | .readErr m => .readFailed m
  | .httpResp status body => .apiError status body

/-- Observable result of one run of `makeRequest`: how many attempts
were performed, how many inter-retry waits completed, and the value
or error returned. -/
structure RunResult (β : Type) where
  attemptsMade : Nat
  waitsDone : Nat
  result : Except (ReqError β) β

/-- The retry loop of `makeRequest`
(`for attempt := 0; attempt <= s.config.RetryAttempts; attempt++`),
with `fuel` the number of loop iterations still permitted by the loop
condition (`RetryAttempts + 1 - attempt`).  For `attempt > 0` the loop
first runs the `select` on `ctx.Done()` vs `time.After(RetryDelay)`;
then it performs the HTTP attempt.  Status 200 returns the body;
a status in [400, 500) breaks out of the loop with the recorded error
(the comment in the source reads: do not retry on client errors, 4xx); every other failure records
the error and continues.  Exhausted fuel models the loop condition
failing, after which the Go code returns `nil, lastErr`.
(Re-creating the `*http.Request` each iteration cannot fail for a
fixed method and URL, so that error path is not modelled.) -/
def makeRequestLoop {β : Type} (upstream : Nat → AttemptOutcome β) (cancelAt : Nat → Bool) :
    Nat → Nat → ReqError β → Nat → Nat → RunResult β
  | 0, _, lastErr, att, w => ⟨att, w, .error lastErr⟩
  | fuel + 1, attempt, lastErr, att, w =>
    if 0 < attempt ∧ cancelAt attempt = true then
      ⟨att, w, .error .cancelled⟩
    else
      match upstream attempt with
      | .netErr m =>
          makeRequestLoop upstream cancelAt fuel (attempt + 1) (.httpFailed m) (att + 1)
            (if 0 < attempt then w + 1 else w)
      | .readErr m =>
          makeRequestLoop upstream cancelAt fuel (attempt + 1) (.readFailed m) (att + 1)
            (if 0 < attempt then w + 1 else w)
      | .httpResp status body =>
          if status = 200 then
            ⟨att + 1, if 0 < attempt then w + 1 else w, .ok body⟩
          else if 400 ≤ status ∧ status < 500 then
            ⟨att + 1, if 0 < attempt then w + 1 else w, .error (.apiError status body)⟩
          else
            makeRequestLoop upstream cancelAt fuel (attempt + 1) (.apiError status body)
              (att + 1) (if 0 < attempt then w + 1 else w)

/-- Model of `makeRequest` for a configuration with `RetryAttempts = retryAttempts`:
run the loop starting at attempt 0 with `lastErr = nil`. -/
def makeRequest {β : Type} (retryAttempts : Nat) (upstream : Nat → AttemptOutcome β)
    (cancelAt : Nat → Bool) : RunResult β :=
  makeRequestLoop upstream cancelAt (retryAttempts + 1) 0 .nil 0 0

/-- An attempt outcome that the claims call retryable: a network-level
failure, or an HTTP status that is neither 2xx nor in [400, 500). -/
def retryableFailure {β : Type} : AttemptOutcome β → Prop
  | .netErr _ => True
  | .readErr _ => True
  | .httpResp status _ => ¬(200 ≤ status ∧ status < 300) ∧ ¬(400 ≤ status ∧ status < 500)

instance {β : Type} : (o : AttemptOutcome β) → Decidable (retryableFailure o)
  | .netErr _ => isTrue trivial
  | .readErr _ => isTrue trivial
  | .httpResp status _ =>
      inferInstanceAs (Decidable (¬(200 ≤ status ∧ status < 300) ∧ ¬(400 ≤ status ∧ status < 500)))

theorem makeRequestLoop_cancel {β : Type} {upstream : Nat → AttemptOutcome β}
    {cancelAt : Nat → Bool} {fuel attempt : Nat} {lastErr : ReqError β} {att w : Nat}
    (h0 : 0 < attempt) (hc : cancelAt attempt = true) :
    makeRequestLoop upstream cancelAt (fuel + 1) attempt lastErr att w =
      ⟨att, w, .error .cancelled⟩ := by
  rw [makeRequestLoop, if_pos ⟨h0, hc⟩]

theorem makeRequestLoop_netErr {β : Type} {upstream : Nat → AttemptOutcome β}
    {cancelAt : Nat → Bool} {fuel attempt : Nat} {lastErr : ReqError β} {att w : Nat}
    {m : String} (hu : upstream attempt = .netErr m)
    (hc : ¬(0 < attempt ∧ cancelAt attempt = true)) :
    makeRequestLoop upstream cancelAt (fuel + 1) attempt lastErr att w =
      makeRequestLoop upstream cancelAt fuel (attempt + 1) (.httpFailed m) (att + 1)
        (if 0 < attempt then w + 1 else w) := by
  rw [makeRequestLoop, if_neg hc, hu]

theorem makeRequestLoop_readErr {β : Type} {upstream : Nat → AttemptOutcome β}
    {cancelAt : Nat → Bool} {fuel attempt : Nat} {lastErr : ReqError β} {att w : Nat}
    {m : String} (hu : upstream attempt = .readErr m)
    (hc : ¬(0 < attempt ∧ cancelAt attempt = true)) :
    makeRequestLoop upstream cancelAt (fuel + 1) attempt lastErr att w =
      makeRequestLoop upstream cancelAt fuel (attempt + 1) (.readFailed m) (att + 1)
        (if 0 < attempt then w + 1 else w) := by
  rw [makeRequestLoop, if_neg hc, hu]

theorem makeRequestLoop_httpResp {β : Type} {upstream : Nat → AttemptOutcome β}
    {cancelAt : Nat → Bool} {fuel attempt : Nat} {lastErr : ReqError β} {att w : Nat}
    {status : Nat} {body : β} (hu : upstream attempt = .httpResp status body)
    (hc : ¬(0 < attempt ∧ cancelAt attempt = true)) :
    makeRequestLoop upstream cancelAt (fuel + 1) attempt lastErr att w =
      (if status = 200 then
        ⟨att + 1, if 0 < attempt then w + 1 else w, .ok body⟩
      else if 400 ≤ status ∧ status < 500 then
        ⟨att + 1, if 0 < attempt then w + 1 else w, .error (.apiError status body)⟩
      else
        makeRequestLoop upstream cancelAt fuel (attempt + 1) (.apiError status body)
          (att + 1) (if 0 < attempt then w + 1 else w)) := by
  rw [makeRequestLoop, if_neg hc, hu]

theorem makeRequestLoop_all_retryable {β : Type} (upstream : Nat → AttemptOutcome β)
    (cancelAt : Nat → Bool) (N : Nat)
    (hup : ∀ k, k ≤ N → retryableFailure (upstream k))
    (hcan : ∀ k, cancelAt k = false) :
    ∀ fuel attempt lastErr att w, fuel + attempt = N + 1 → attempt ≤ N →
      makeRequestLoop upstream cancelAt fuel attempt lastErr att w =
        ⟨att + fuel, w + fuel - (if attempt = 0 then 1 else 0), .error (errOf (upstream N))⟩ := by
  intro fuel
  induction fuel with
  | zero => intro attempt lastErr att w hfuel hle; omega
  | succ fuel ih =>
    intro attempt lastErr att w hfuel hle
    have hret := hup attempt hle
    have hc : ¬(0 < attempt ∧ cancelAt attempt = true) := by simp [hcan]
    rcases hu : upstream attempt with m | m | ⟨status, body⟩
    · rw [makeRequestLoop_netErr hu hc]
      rcases Nat.lt_or_ge attempt N with hlt | hge
      · rw [ih (attempt + 1) _ _ _ (by omega) (by omega)]
        congr 1
        all_goals try omega
        all_goals split_ifs
        all_goals try contradiction
        all_goals omega
      · have hN : attempt = N := by omega
        have hf : fuel = 0 := by omega
        subst hf
        rw [hN] at hu
        rw [makeRequestLoop, hu]
        congr 1
        all_goals try omega
        all_goals split_ifs
        all_goals try contradiction
        all_goals omega
    · rw [makeRequestLoop_readErr hu hc]
      rcases Nat.lt_or_ge attempt N with hlt | hge
      · rw [ih (attempt + 1) _ _ _ (by omega) (by omega)]
        congr 1
        all_goals try omega
        all_goals split_ifs
        all_goals try contradiction
        all_goals omega
      · have hN : attempt = N := by omega
        have hf : fuel = 0 := by omega
        subst hf
        rw [hN] at hu
        rw [makeRequestLoop, hu]
        congr 1
        all_goals try omega
        all_goals split_ifs
        all_goals try contradiction
        all_goals omega
    · rw [hu] at hret
      have h200 : ¬(status = 200) := fun h => hret.1 (by omega)
      rw [makeRequestLoop_httpResp hu hc, if_neg h200, if_neg hret.2]
      rcases Nat.lt_or_ge attempt N with hlt | hge
      · rw [ih (attempt + 1) _ _ _ (by omega) (by omega)]
        congr 1
        all_goals try omega
        all_goals split_ifs
        all_goals try contradiction
        all_goals omega
      · have hN : attempt = N := by omega
        have hf : fuel = 0 := by omega
        subst hf
        rw [hN] at hu
        rw [makeRequestLoop, hu]
        congr 1
        all_goals try omega
        all_goals split_ifs
        all_goals try contradiction
        all_goals omega

/-- C1: with `RetryAttempts = N` and an upstream failing every attempt
with a retryable outcome (network-level failure, or an HTTP status that
is neither 2xx nor in [400, 500)) and no cancellation, `makeRequest`
performs exactly N+1 attempts, completes an inter-retry wait before
each attempt after the first (N waits in total), and returns the error
recorded on the last attempt. -/
theorem makeRequest_retry_exhaustion {β : Type} (N : Nat)
    (upstream : Nat → AttemptOutcome β) (cancelAt : Nat → Bool)
    (hup : ∀ k, k ≤ N → retryableFailure (upstream k))
    (hcan : ∀ k, cancelAt k = false) :
    makeRequest N upstream cancelAt = ⟨N + 1, N, .error (errOf (upstream N))⟩ := by
  rw [makeRequest,
    makeRequestLoop_all_retryable upstream cancelAt N hup hcan (N + 1) 0 .nil 0 0 rfl (by omega)]
  simp

theorem makeRequest_retry_exhaustion_witness :
    (∀ k, k ≤ 2 → retryableFailure ((fun _ => AttemptOutcome.httpResp 500 "overloaded") k)) ∧
    makeRequest 2 (fun _ => AttemptOutcome.httpResp 500 "overloaded") (fun _ => false) =
      ⟨3, 2, .error (ReqError.apiError 500 "overloaded")⟩ :=
  ⟨fun _ _ => ⟨by omega, by omega⟩,
   makeRequest_retry_exhaustion 2 (fun _ => AttemptOutcome.httpResp 500 "overloaded")
     (fun _ => false) (fun _ _ => ⟨by omega, by omega⟩) (fun _ => rfl)⟩

theorem makeRequestLoop_stops_4xx {β : Type} (upstream : Nat → AttemptOutcome β)
    (cancelAt : Nat → Bool) (N k status : Nat) (body : β)
    (hpre : ∀ j, j < k → retryableFailure (upstream j))
    (hk : upstream k = .httpResp status body) (h4 : 400 ≤ status) (h5 : status < 500)
    (hcan : ∀ j, cancelAt j = false) :
    ∀ fuel attempt lastErr att w, fuel + attempt = N + 1 → attempt ≤ k → k ≤ N →
      makeRequestLoop upstream cancelAt fuel attempt lastErr att w =
        ⟨att + (k + 1 - attempt), w + (k + 1 - attempt) - (if attempt = 0 then 1 else 0),
          .error (.apiError status body)⟩ := by
  intro fuel
  induction fuel with
  | zero => intro attempt lastErr att w hfuel hle hkN; omega
  | succ fuel ih =>
    intro attempt lastErr att w hfuel hle hkN
    have hc : ¬(0 < attempt ∧ cancelAt attempt = true) := by simp [hcan]
    rcases Nat.lt_or_ge attempt k with hlt | hge
    · have hret := hpre attempt hlt
      rcases hu : upstream attempt with m | m | ⟨status2, body2⟩
      · rw [makeRequestLoop_netErr hu hc, ih (attempt + 1) _ _ _ (by omega) (by omega) hkN]
        congr 1
        all_goals try omega
        all_goals split_ifs
        all_goals try contradiction
        all_goals omega
      · rw [makeRequestLoop_readErr hu hc, ih (attempt + 1) _ _ _ (by omega) (by omega) hkN]
        congr 1
        all_goals try omega
        all_goals split_ifs
        all_goals try contradiction
        all_goals omega
      · rw [hu] at hret
        have h200 : ¬(status2 = 200) := fun h => hret.1 (by omega)
        rw [makeRequestLoop_httpResp hu hc, if_neg h200, if_neg hret.2,
          ih (attempt + 1) _ _ _ (by omega) (by omega) hkN]
        congr 1
        all_goals try omega
        all_goals split_ifs
        all_goals try contradiction
        all_goals omega
    · have hak : attempt = k := by omega
      subst hak
      have h200 : ¬(status = 200) := by omega
      rw [makeRequestLoop_httpResp hk hc, if_neg h200, if_pos ⟨h4, h5⟩]
      congr 1
      all_goals try omega
      all_goals split_ifs
      all_goals try contradiction
      all_goals omega

/-- C2: if every attempt before attempt `k` fails with a retryable
outcome and attempt `k` (within the retry budget) returns an HTTP
status in [400, 500), `makeRequest` stops immediately after attempt
`k`: it performs exactly `k + 1` attempts regardless of the remaining
retry budget and returns the error of attempt `k`. -/
theorem makeRequest_client_error_stops {β : Type} (N k status : Nat) (body : β)
    (upstream : Nat → AttemptOutcome β) (cancelAt : Nat → Bool)
    (hkN : k ≤ N) (hpre : ∀ j, j < k → retryableFailure (upstream j))
    (hk : upstream k = .httpResp status body) (h4 : 400 ≤ status) (h5 : status < 500)
    (hcan : ∀ j, cancelAt j = false) :
    makeRequest N upstream cancelAt = ⟨k + 1, k, .error (.apiError status body)⟩ := by
  rw [makeRequest, makeRequestLoop_stops_4xx upstream cancelAt N k status body hpre hk h4 h5
    hcan (N + 1) 0 .nil 0 0 rfl (by omega) hkN]
  congr 1
  all_goals try omega
  all_goals split_ifs
  all_goals omega

theorem makeRequest_client_error_stops_witness :
    (∀ j, j < 0 → retryableFailure ((fun _ => AttemptOutcome.httpResp 404 "not found") j)) ∧
    makeRequest 3 (fun _ => AttemptOutcome.httpResp 404 "not found") (fun _ => false) =
      ⟨1, 0, .error (ReqError.apiError 404 "not found")⟩ :=
  ⟨fun _ h => absurd h (Nat.not_lt_zero _),
   makeRequest_client_error_stops 3 0 404 "not found"
     (fun _ => AttemptOutcome.httpResp 404 "not found") (fun _ => false)
     (by omega) (fun _ h => absurd h (Nat.not_lt_zero _)) rfl (by omega) (by omega)
     (fun _ => rfl)⟩

theorem makeRequestLoop_cancelled {β : Type} (upstream : Nat → AttemptOutcome β)
    (cancelAt : Nat → Bool) (N j : Nat)
    (hj0 : 0 < j) (hjN : j ≤ N)
    (hpre : ∀ i, i < j → retryableFailure (upstream i))
    (hcj : cancelAt j = true) (hci : ∀ i, i < j → cancelAt i = false) :
    ∀ fuel attempt lastErr att w, fuel + attempt = N + 1 → attempt ≤ j →
      makeRequestLoop upstream cancelAt fuel attempt lastErr att w =
        ⟨att + (j - attempt), w + (j - attempt) - (if attempt = 0 then 1 else 0),
          .error .cancelled⟩ := by
  intro fuel
  induction fuel with
  | zero => intro attempt lastErr att w hfuel hle; omega
  | succ fuel ih =>
    intro attempt lastErr att w hfuel hle
    rcases Nat.lt_or_ge attempt j with hlt | hge
    · have hc : ¬(0 < attempt ∧ cancelAt attempt = true) := by simp [hci attempt hlt]
      have hret := hpre attempt hlt
      rcases hu : upstream attempt with m | m | ⟨status2, body2⟩
      · rw [makeRequestLoop_netErr hu hc, ih (attempt + 1) _ _ _ (by omega) (by omega)]
        congr 1
        all_goals try omega
        all_goals split_ifs
        all_goals try contradiction
        all_goals omega
      · rw [makeRequestLoop_readErr hu hc, ih (attempt + 1) _ _ _ (by omega) (by omega)]
        congr 1
        all_goals try omega
        all_goals split_ifs
        all_goals try contradiction
        all_goals omega
      · rw [hu] at hret
        have h200 : ¬(status2 = 200) := fun h => hret.1 (by omega)
        rw [makeRequestLoop_httpResp hu hc, if_neg h200, if_neg hret.2,
          ih (attempt + 1) _ _ _ (by omega) (by omega)]
        congr 1
        all_goals try omega
        all_goals split_ifs
        all_goals try contradiction
        all_goals omega
    · have haj : attempt = j := by omega
      subst haj
      rw [makeRequestLoop_cancel hj0 hcj]
      congr 1
      all_goals try omega
      all_goals split_ifs
      all_goals try contradiction
      all_goals omega

/-- C3: if the cancellation signal of the caller fires during the
inter-retry wait preceding attempt `j > 0` (all earlier attempts
having failed with retryable outcomes and no earlier cancellation),
`makeRequest` returns the cancellation error immediately: exactly `j`
attempts were performed (attempt `j` never runs), `j - 1` waits
completed, and the returned error is `cancelled`, which is distinct
from every error recorded from an upstream attempt outcome. -/
theorem makeRequest_cancellation_during_wait {β : Type} (N j : Nat)
    (upstream : Nat → AttemptOutcome β) (cancelAt : Nat → Bool)
    (hj0 : 0 < j) (hjN : j ≤ N)
    (hpre : ∀ i, i < j → retryableFailure (upstream i))
    (hcj : cancelAt j = true) (hci : ∀ i, i < j → cancelAt i = false) :
    makeRequest N upstream cancelAt = ⟨j, j - 1, .error .cancelled⟩ ∧
      ∀ o : AttemptOutcome β, (ReqError.cancelled : ReqError β) ≠ errOf o := by
  constructor
  · rw [makeRequest, makeRequestLoop_cancelled upstream cancelAt N j hj0 hjN hpre hcj hci
      (N + 1) 0 .nil 0 0 rfl (by omega)]
    congr 1
    all_goals try omega
    all_goals split_ifs
    all_goals omega
  · intro o
    cases o <;> simp [errOf]

theorem makeRequest_cancellation_during_wait_witness :
    makeRequest 2 (fun _ => AttemptOutcome.httpResp 503 "unavailable")
        (fun i => decide (i = 1)) =
      ⟨1, 0, .error ReqError.cancelled⟩ ∧
      ∀ o : AttemptOutcome String, (ReqError.cancelled : ReqError String) ≠ errOf o :=
  makeRequest_cancellation_during_wait 2 1
    (fun _ => AttemptOutcome.httpResp 503 "unavailable") (fun i => decide (i = 1))
    (by omega) (by omega) (fun _ _ => ⟨by omega, by omega⟩) (by decide)
    (fun i hi => by obtain rfl := Nat.lt_one_iff.mp hi; rfl)

/-- Model of `model.ErrorResponse` (its `Details` field is never set by
`Validate` and is omitted).  The Go field `Type` is called `ErrType`
here because `Type` is reserved in Lean. -/
structure ErrorResponse where
  Code : Nat
  Message : String
  ErrType : String
deriving DecidableEq

/-- Model of `model.AIRequest`.  `CreatedAt` (a timestamp, never read by the
service) is omitted; the free-form `Parameters` map is carried as an
association list of tagged values. -/
structure AIRequest where
  ID : String
  Model : String
  Prompt : String
  MaxTokens : Int
  Temperature : Rat
  TopP : Rat
  Parameters : List (String × ParamValue)

/-- Model of the `Validate` method of `model.AIRequest`: the four checks in source order.
`some e` models returning the `*ErrorResponse` as a non-nil error. -/
def AIRequest.Validate (r : AIRequest) : Option ErrorResponse :=
  if r.Prompt = "" then some ⟨400, "prompt is required", "validation_error"⟩
  else if r.Model = "" then some ⟨400, "model is required", "validation_error"⟩
  else if r.MaxTokens < 0 then some ⟨400, "max_tokens must be positive", "validation_error"⟩
  else if r.Temperature < 0 ∨ r.Temperature > 1 then
    some ⟨400, "temperature must be between 0 and 1", "validation_error"⟩
  else none

/-- Model of `HuggingFaceResponse`: one element of the upstream JSON array,
with the same four optional fields (absent fields decode to the Go
zero values, hence the defaults). -/
structure HuggingFaceResponse where
  GeneratedText : String := ""
  Score : Rat := 0
  Label : String := ""
  SummaryText : String := ""
deriving DecidableEq

/-- Model of `HuggingFaceRequest`: the upstream payload.  The two Go
`map[string]interface{}` fields are modelled extensionally as
functions from key to optional value (a `nil` map is
`fun _ => none`). -/
structure HuggingFaceRequest where
  Inputs : String
  Parameters : String → Option ParamValue
  Options : String → Option ParamValue

/-- Go map assignment `m[k] = v`. -/
def setParam (m : String → Option ParamValue) (k : String) (v : ParamValue) :
    String → Option ParamValue :=
  fun k2 => if k2 = k then some v else m k2

/-- The `for k, v := range req.Parameters { hfReq.Parameters[k] = v }`
merge loop: overlay each caller-supplied entry onto the base map. -/
def overlayParams (base : String → Option ParamValue) :
    List (String × ParamValue) → (String → Option ParamValue)
  | [] => base
  | (k, v) :: rest => overlayParams (setParam base k v) rest

/-- The `Parameters` map literal built by `GenerateText` before the
merge loop: `{max_new_tokens, temperature, top_p}`. -/
def baseParameters (req : AIRequest) : String → Option ParamValue := fun k =>
  if k = "max_new_tokens" then some (.int req.MaxTokens)
  else if k = "temperature" then some (.rat req.Temperature)
  else if k = "top_p" then some (.rat req.TopP)
  else none

/-- The upstream payload `GenerateText` builds (lines 70–85):
`Inputs` is the prompt, `Parameters` is the three-key base map with
every caller-supplied extra parameter assigned over it, and `Options`
is the separate one-key map `{"wait_for_model": true}`, which the
merge loop never touches. -/
def buildHFRequest (req : AIRequest) : HuggingFaceRequest :=
  { Inputs := req.Prompt
  , Parameters := overlayParams (baseParameters req) req.Parameters
  , Options := fun k => if k = "wait_for_model" then some (.bool true) else none }

/-- Model of `strings.TrimPrefix(s, pre)`: remove `pre` from the front of `s`
exactly once, if present (modelled at character granularity). -/
def TrimPrefix (s pre : String) : String :=
  if pre.data.isPrefixOf s.data then String.mk (s.data.drop pre.data.length) else s

/-- Model of `model.Choice`.  `LogProbs` is a `*float64` the service never
sets, hence `Option Rat` and always `none`. -/
structure Choice where
  Index : Nat
  Text : String
  FinishReason : String
  LogProbs : Option Rat := none
deriving DecidableEq

/-- Model of `model.Usage` (Go `int` fields, modelled as `Int`). -/
structure Usage where
  PromptTokens : Int
  CompletionTokens : Int
  TotalTokens : Int
deriving DecidableEq

/-- Model of `model.AIResponse` without the wall-clock fields `GeneratedAt`
and `ProcessingMs`. -/
structure AIResponse where
  ID : String
  Model : String
  Choices : List Choice
  Usage : Usage
deriving DecidableEq

/-- Model of `model.SentimentResponse`. -/
structure SentimentResponse where
  Text : String
  Sentiment : String
  Score : Rat
  Confidence : Rat
deriving DecidableEq

/-- Model of `model.SummaryResponse`. -/
structure SummaryResponse where
  OriginalText : String
  Summary : String
  Compression : Rat
deriving DecidableEq

/-- The error channel of the three service operations: a validation
error returned before any network activity, an error propagated from
`makeRequest`, a JSON unmarshalling failure of a 200 body
(`fmt.Errorf("failed to parse ...")`), or an empty decoded array
(`fmt.Errorf("no ... result")`). -/
inductive SvcError (β : Type) where
  | validation (e : ErrorResponse)
  | upstream (e : ReqError β)
  | parseError (msg : String)
  | empty (msg : String)

/-- Observable outcome of one service call: the number of HTTP
attempts performed, the upstream payload handed to `makeRequest`
(`none` when validation failed before any payload was built), and the
returned value or error. -/
structure SvcRun (β ρ : Type) where
  networkAttempts : Nat
  sentPayload : Option HuggingFaceRequest
  result : Except (SvcError β) ρ

/-- The `for i, hfResp := range hfResponses` loop of `GenerateText`,
carried out from index `i`: each element becomes a `Choice` with its
index, the generated text with one leading occurrence of the prompt
removed, and finish reason "stop". -/
def buildChoicesFrom (prompt : String) : Nat → List HuggingFaceResponse → List Choice
  | _, [] => []
  | i, r :: rs =>
      ⟨i, TrimPrefix r.GeneratedText prompt, "stop", none⟩ :: buildChoicesFrom prompt (i + 1) rs

def buildChoices (prompt : String) (rs : List HuggingFaceResponse) : List Choice :=
  buildChoicesFrom prompt 0 rs

/-- The running `totalTokens` accumulator of `GenerateText`: per
element, add `(len(prompt) + len(stripped text)) / 4`. -/
def totalTokensOf (prompt : String) (rs : List HuggingFaceResponse) : Nat :=
  rs.foldl (fun acc r => acc + (prompt.length + (TrimPrefix r.GeneratedText prompt).length) / 4) 0

/-- Model of `GenerateText`: validate, build the upstream payload, call
`makeRequest`, decode the body into `[]HuggingFaceResponse`, reject an
empty array, then assemble choices and the usage estimate
(`PromptTokens = len(prompt)/4`, `TotalTokens` the accumulated sum,
`CompletionTokens` their difference). -/
def GenerateText {β : Type} (retryAttempts : Nat) (upstream : Nat → AttemptOutcome β)
    (cancelAt : Nat → Bool) (decode : β → Option (List HuggingFaceResponse))
    (req : AIRequest) : SvcRun β AIResponse :=
  match req.Validate with
  | some e => ⟨0, none, .error (.validation e)⟩
  | none =>
    match (makeRequest retryAttempts upstream cancelAt).result with
    | .error e =>
        ⟨(makeRequest retryAttempts upstream cancelAt).attemptsMade, some (buildHFRequest req),
          .error (.upstream e)⟩
    | .ok body =>
      match decode body with
      | none =>
          ⟨(makeRequest retryAttempts upstream cancelAt).attemptsMade, some (buildHFRequest req),
            .error (.parseError "failed to parse response")⟩
      | some [] =>
          ⟨(makeRequest retryAttempts upstream cancelAt).attemptsMade, some (buildHFRequest req),
            .error (.empty "no response generated")⟩
      | some (r0 :: rs) =>
        ⟨(makeRequest retryAttempts upstream cancelAt).attemptsMade, some (buildHFRequest req),
          .ok
          { ID := req.ID
          , Model := req.Model
          , Choices := buildChoices req.Prompt (r0 :: rs)
          , Usage :=
            { PromptTokens := ((req.Prompt.length / 4 : Nat) : Int)
            , CompletionTokens := (totalTokensOf req.Prompt (r0 :: rs) : Int) -
                ((req.Prompt.length / 4 : Nat) : Int)
            , TotalTokens := (totalTokensOf req.Prompt (r0 :: rs) : Int) } }⟩

/-- Model of `GenerateCompletion`, an alias for `GenerateText` (lines
148–151). -/
def GenerateCompletion {β : Type} (retryAttempts : Nat) (upstream : Nat → AttemptOutcome β)
    (cancelAt : Nat → Bool) (decode : β → Option (List HuggingFaceResponse))
    (req : AIRequest) : SvcRun β AIResponse :=
  GenerateText retryAttempts upstream cancelAt decode req

/-- The `for _, result := range hfResponses[0]` scan of
`AnalyzeSentiment`: keep the current best, replacing it only when a
later element has a strictly greater score. -/
def bestSentiment : List HuggingFaceResponse → HuggingFaceResponse → HuggingFaceResponse
  | [], best => best
  | r :: rs, best => bestSentiment rs (if r.Score > best.Score then r else best)

/-- The payload `AnalyzeSentiment` builds: just `{Inputs: text}`
(its `Parameters` and `Options` maps are nil). -/
def sentimentHFRequest (text : String) : HuggingFaceRequest :=
  { Inputs := text, Parameters := fun _ => none, Options := fun _ => none }

/-- Model of `AnalyzeSentiment`: call `makeRequest` with the hardcoded model
(the payload is just `{Inputs: text}` with nil maps), decode the body
into `[][]HuggingFaceResponse`, reject an empty outer or first inner
array, then scan the first inner array for the best score and report
its label with confidence equal to the score. -/
def AnalyzeSentiment {β : Type} (retryAttempts : Nat) (upstream : Nat → AttemptOutcome β)
    (cancelAt : Nat → Bool) (decode : β → Option (List (List HuggingFaceResponse)))
    (text : String) : SvcRun β SentimentResponse :=
  match (makeRequest retryAttempts upstream cancelAt).result with
  | .error e =>
      ⟨(makeRequest retryAttempts upstream cancelAt).attemptsMade, some (sentimentHFRequest text),
        .error (.upstream e)⟩
  | .ok body =>
    match decode body with
    | none =>
        ⟨(makeRequest retryAttempts upstream cancelAt).attemptsMade,
          some (sentimentHFRequest text),
          .error (.parseError "failed to parse sentiment response")⟩
    | some [] =>
        ⟨(makeRequest retryAttempts upstream cancelAt).attemptsMade,
          some (sentimentHFRequest text),
          .error (.empty "no sentiment analysis result")⟩
    | some ([] :: _) =>
        ⟨(makeRequest retryAttempts upstream cancelAt).attemptsMade,
          some (sentimentHFRequest text),
          .error (.empty "no sentiment analysis result")⟩
    | some ((first :: irest) :: _) =>
        ⟨(makeRequest retryAttempts upstream cancelAt).attemptsMade,
          some (sentimentHFRequest text),
          .ok ⟨text, (bestSentiment (first :: irest) first).Label,
            (bestSentiment (first :: irest) first).Score,
            (bestSentiment (first :: irest) first).Score⟩⟩

/-- The payload `SummarizeText` builds: `{Inputs: text}` with
`Parameters` `{"max_length": maxLength, "min_length": maxLength / 4}`
(Go integer division truncates toward zero, hence `Int.tdiv`). -/
def summaryHFRequest (text : String) (maxLength : Int) : HuggingFaceRequest :=
  { Inputs := text
  , Parameters := fun k =>
      if k = "max_length" then some (.int maxLength)
      else if k = "min_length" then some (.int (Int.tdiv maxLength 4))
      else none
  , Options := fun _ => none }

/-- Model of `SummarizeText`: build the payload with `max_length` and
`min_length = maxLength / 4` (Go integer division truncates toward
zero, `Int.tdiv`), call `makeRequest` with the hardcoded model, decode
the body, reject an empty array, then report the summary of the
first element with compression `len(summary) / len(text)` (the division is
modelled exactly over `Rat`; the Go code divides `float64`s and has no
guard for empty input — every claim about it assumes
`len(text) > 0`). -/
def SummarizeText {β : Type} (retryAttempts : Nat) (upstream : Nat → AttemptOutcome β)
    (cancelAt : Nat → Bool) (decode : β → Option (List HuggingFaceResponse))
    (text : String) (maxLength : Int) : SvcRun β SummaryResponse :=
  match (makeRequest retryAttempts upstream cancelAt).result with
  | .error e =>
      ⟨(makeRequest retryAttempts upstream cancelAt).attemptsMade,
        some (summaryHFRequest text maxLength), .error (.upstream e)⟩
  | .ok body =>
    match decode body with
    | none =>
        ⟨(makeRequest retryAttempts upstream cancelAt).attemptsMade,
          some (summaryHFRequest text maxLength),
          .error (.parseError "failed to parse summarization response")⟩
    | some [] =>
        ⟨(makeRequest retryAttempts upstream cancelAt).attemptsMade,
          some (summaryHFRequest text maxLength),
          .error (.empty "no summarization result")⟩
    | some (first :: _) =>
        ⟨(makeRequest retryAttempts upstream cancelAt).attemptsMade,
          some (summaryHFRequest text maxLength), .ok
          ⟨text, first.SummaryText,
            (first.SummaryText.length : Rat) / (text.length : Rat)⟩⟩

/-- The first-listed element of maximal score: computed from the right,
keeping the earlier element unless a later one is strictly greater. -/
def firstMaxElem : List HuggingFaceResponse → Option HuggingFaceResponse
  | [] => none
  | r :: rs =>
    (firstMaxElem rs).elim (some r) (fun b => if b.Score > r.Score then some b else some r)

theorem firstMaxElem_mem :
    ∀ (l : List HuggingFaceResponse) (b : HuggingFaceResponse),
      firstMaxElem l = some b → b ∈ l := by
  intro l
  induction l with
  | nil => intro b h; simp [firstMaxElem] at h
  | cons r rs ih =>
    intro b h
    rw [firstMaxElem] at h
    cases hf : firstMaxElem rs with
    | none =>
      rw [hf] at h
      simp only [Option.elim, Option.some.injEq] at h
      subst h
      exact List.mem_cons_self _ _
    | some m =>
      rw [hf] at h
      simp only [Option.elim] at h
      split_ifs at h with hgt
      · simp only [Option.some.injEq] at h
        subst h
        exact List.mem_cons_of_mem _ (ih _ hf)
      · simp only [Option.some.injEq] at h
        subst h
        exact List.mem_cons_self _ _

theorem bestSentiment_eq :
    ∀ (l : List HuggingFaceResponse) (b : HuggingFaceResponse),
      bestSentiment l b =
        (firstMaxElem l).elim b (fun m => if m.Score > b.Score then m else b) := by
  intro l
  induction l with
  | nil => intro b; rfl
  | cons r rs ih =>
    intro b
    rw [bestSentiment, ih, firstMaxElem]
    cases hf : firstMaxElem rs with
    | none => simp only [hf, Option.elim]
    | some m =>
      simp only [Option.elim]
      by_cases h1 : r.Score > b.Score
      · by_cases h2 : m.Score > r.Score
        · simp only [if_pos h1, if_pos h2, Option.elim]
          rw [if_pos (show m.Score > b.Score by linarith)]
        · simp only [if_pos h1, if_neg h2, Option.elim]
      · by_cases h2 : m.Score > r.Score
        · simp only [if_neg h1, if_pos h2, Option.elim]
        · simp only [if_neg h1, if_neg h2, Option.elim]
          rw [if_neg (show ¬m.Score > b.Score by linarith)]

theorem firstMaxElem_first_max :
    ∀ (l : List HuggingFaceResponse) (i : Nat) (m : HuggingFaceResponse),
      l.get? i = some m → (∀ r ∈ l, r.Score ≤ m.Score) →
      (∀ j r, j < i → l.get? j = some r → r.Score < m.Score) →
      firstMaxElem l = some m := by
  intro l
  induction l with
  | nil => intro i m h _ _; simp at h
  | cons r rs ih =>
    intro i m hget hmax hfirst
    cases i with
    | zero =>
      have hrm : r = m := by simpa using hget
      rw [hrm, firstMaxElem]
      cases hf : firstMaxElem rs with
      | none => rfl
      | some b =>
        have hb : b ∈ rs := firstMaxElem_mem rs b hf
        have hle : b.Score ≤ m.Score := hmax b (List.mem_cons_of_mem _ hb)
        simp only [Option.elim]
        rw [if_neg (not_lt.mpr hle)]
    | succ n =>
      have hget2 : rs.get? n = some m := by simpa using hget
      have hr : r.Score < m.Score := hfirst 0 r (Nat.succ_pos n) (by simp)
      have ihs := ih n m hget2
        (fun x hx => hmax x (List.mem_cons_of_mem _ hx))
        (fun j x hj hx => hfirst (j + 1) x (by omega) (by simpa using hx))
      rw [firstMaxElem, ihs]
      simp only [Option.elim]
      rw [if_pos hr]


theorem bestSentiment_first_max (first : HuggingFaceResponse)
    (rest : List HuggingFaceResponse) (i : Nat) (m : HuggingFaceResponse)
    (hget : (first :: rest).get? i = some m)
    (hmax : ∀ r ∈ first :: rest, r.Score ≤ m.Score)
    (hfirst : ∀ j r, j < i → (first :: rest).get? j = some r → r.Score < m.Score) :
    bestSentiment (first :: rest) first = m := by
  have hfm : firstMaxElem (first :: rest) = some m :=
    firstMaxElem_first_max _ i m hget hmax hfirst
  rw [bestSentiment_eq]
  simp only [hfm, Option.elim]
  by_cases hgt : m.Score > first.Score
  · rw [if_pos hgt]
  · rw [if_neg hgt]
    cases i with
    | zero =>
      simp only [List.get?_cons_zero, Option.some.injEq] at hget
      exact hget
    | succ n => exact absurd (hfirst 0 first (Nat.succ_pos n) (by simp)) hgt

/-- C4: when the decoded sentiment response has a non-empty outer
array whose first inner array contains `m` at position `i`, with the
score of `m` maximal and every earlier score strictly smaller (so
`m` is the first element attaining the maximum; on ties the
first-listed element wins because only a strictly greater score
advances the scan), `AnalyzeSentiment` returns the label and score of
`m`,
with confidence equal to that score. -/
theorem AnalyzeSentiment_first_max {β : Type} (retryAttempts : Nat)
    (upstream : Nat → AttemptOutcome β) (cancelAt : Nat → Bool)
    (decode : β → Option (List (List HuggingFaceResponse))) (text : String)
    (body : β) (first : HuggingFaceResponse) (irest : List HuggingFaceResponse)
    (orest : List (List HuggingFaceResponse)) (i : Nat) (m : HuggingFaceResponse)
    (hm : (makeRequest retryAttempts upstream cancelAt).result = .ok body)
    (hd : decode body = some ((first :: irest) :: orest))
    (hget : (first :: irest).get? i = some m)
    (hmax : ∀ r ∈ first :: irest, r.Score ≤ m.Score)
    (hfirst : ∀ j r, j < i → (first :: irest).get? j = some r → r.Score < m.Score) :
    (AnalyzeSentiment retryAttempts upstream cancelAt decode text).result =
      .ok ⟨text, m.Label, m.Score, m.Score⟩ := by
  unfold AnalyzeSentiment
  simp only [hm, hd]
  rw [bestSentiment_first_max first irest i m hget hmax hfirst]

theorem AnalyzeSentiment_first_max_witness :
    (∀ r ∈ [({ Label := "negative", Score := 1 } : HuggingFaceResponse),
        { Label := "positive", Score := 1 }],
      r.Score ≤ ({ Label := "negative", Score := 1 } : HuggingFaceResponse).Score) ∧
    (AnalyzeSentiment 0 (fun _ => AttemptOutcome.httpResp 200 0) (fun _ => false)
        (fun _ => some [[{ Label := "negative", Score := 1 },
          { Label := "positive", Score := 1 }]])
        "mixed feelings").result =
      .ok ⟨"mixed feelings", "negative", 1, 1⟩ :=
  ⟨by decide,
   AnalyzeSentiment_first_max 0 (fun _ => AttemptOutcome.httpResp 200 0) (fun _ => false)
     (fun _ => some [[{ Label := "negative", Score := 1 },
       { Label := "positive", Score := 1 }]])
     "mixed feelings" 0 { Label := "negative", Score := 1 }
     [{ Label := "positive", Score := 1 }] [] 0 { Label := "negative", Score := 1 }
     rfl rfl rfl (by decide) (fun j r hj _ => absurd hj (Nat.not_lt_zero j))⟩

theorem buildChoicesFrom_get? (prompt : String) :
    ∀ (rs : List HuggingFaceResponse) (j i : Nat),
      (buildChoicesFrom prompt j rs).get? i =
        (rs.get? i).map fun r => ⟨j + i, TrimPrefix r.GeneratedText prompt, "stop", none⟩ := by
  intro rs
  induction rs with
  | nil => intro j i; simp [buildChoicesFrom]
  | cons r rs ih =>
    intro j i
    cases i with
    | zero => simp [buildChoicesFrom]
    | succ n =>
      have hj : j + 1 + n = j + (n + 1) := by omega
      simp only [buildChoicesFrom, List.get?_cons_succ, ih (j + 1) n, hj]

theorem choices_token_sum (prompt : String) :
    ∀ (rs : List HuggingFaceResponse) (j : Nat) (acc : Nat),
      (buildChoicesFrom prompt j rs).foldl
          (fun a c => a + (prompt.length + c.Text.length) / 4) acc =
        rs.foldl
          (fun a r => a + (prompt.length + (TrimPrefix r.GeneratedText prompt).length) / 4)
          acc := by
  intro rs
  induction rs with
  | nil => intro j acc; rfl
  | cons r rs ih =>
    intro j acc
    simp only [buildChoicesFrom, List.foldl_cons]
    exact ih (j + 1) _

theorem GenerateText_ok {β : Type} (retryAttempts : Nat) (upstream : Nat → AttemptOutcome β)
    (cancelAt : Nat → Bool) (decode : β → Option (List HuggingFaceResponse))
    (req : AIRequest) (body : β) (r0 : HuggingFaceResponse) (rs : List HuggingFaceResponse)
    (hv : req.Validate = none)
    (hm : (makeRequest retryAttempts upstream cancelAt).result = .ok body)
    (hd : decode body = some (r0 :: rs)) :
    GenerateText retryAttempts upstream cancelAt decode req =
      ⟨(makeRequest retryAttempts upstream cancelAt).attemptsMade, some (buildHFRequest req),
        .ok { ID := req.ID
            , Model := req.Model
            , Choices := buildChoices req.Prompt (r0 :: rs)
            , Usage :=
              { PromptTokens := ((req.Prompt.length / 4 : Nat) : Int)
              , CompletionTokens := (totalTokensOf req.Prompt (r0 :: rs) : Int) -
                  ((req.Prompt.length / 4 : Nat) : Int)
              , TotalTokens := (totalTokensOf req.Prompt (r0 :: rs) : Int) } }⟩ := by
  unfold GenerateText
  simp only [hv, hm, hd]

/-- C5 (amended): for every successful generation parse, the choice at
position `i` carries the `i`-th upstream generated text with one
leading occurrence of the prompt removed by exact prefix match
(removed at most once; whatever follows the removed prefix — including
a separating space — is retained), finish reason "stop", and index
`i`. -/
theorem GenerateText_choice_shape {β : Type} (retryAttempts : Nat)
    (upstream : Nat → AttemptOutcome β) (cancelAt : Nat → Bool)
    (decode : β → Option (List HuggingFaceResponse)) (req : AIRequest)
    (body : β) (r0 : HuggingFaceResponse) (rs : List HuggingFaceResponse)
    (resp : AIResponse) (i : Nat) (r : HuggingFaceResponse)
    (hv : req.Validate = none)
    (hm : (makeRequest retryAttempts upstream cancelAt).result = .ok body)
    (hd : decode body = some (r0 :: rs))
    (hok : (GenerateText retryAttempts upstream cancelAt decode req).result = .ok resp)
    (hget : (r0 :: rs).get? i = some r) :
    resp.Choices.get? i =
      some ⟨i, TrimPrefix r.GeneratedText req.Prompt, "stop", none⟩ := by
  rw [GenerateText_ok retryAttempts upstream cancelAt decode req body r0 rs hv hm hd] at hok
  simp only [Except.ok.injEq] at hok
  subst hok
  rw [buildChoices, buildChoicesFrom_get? req.Prompt (r0 :: rs) 0 i, hget]
  simp

theorem GenerateText_strip_counterexample :
    ((GenerateText 0 (fun _ => AttemptOutcome.httpResp 200 0) (fun _ => false)
        (fun _ => some [{ GeneratedText := "Hello world" }])
        { ID := "1", Model := "gpt2", Prompt := "Hello", MaxTokens := 10,
          Temperature := 1, TopP := 1, Parameters := [] }).result.map
      (fun resp => resp.Choices.map Choice.Text)) = Except.ok [" world"] ∧
    " world" ≠ "world" :=
  ⟨rfl, by decide⟩

theorem GenerateText_choice_shape_witness :
    ((GenerateText 0 (fun _ => AttemptOutcome.httpResp 200 0) (fun _ => false)
        (fun _ => some [{ GeneratedText := "Hello world" }])
        { ID := "1", Model := "gpt2", Prompt := "Hello", MaxTokens := 10,
          Temperature := 1, TopP := 1, Parameters := [] }).result =
      .ok { ID := "1", Model := "gpt2",
            Choices := [⟨0, " world", "stop", none⟩],
            Usage := ⟨1, 1, 2⟩ }) ∧
    ({ ID := "1", Model := "gpt2",
       Choices := [⟨0, " world", "stop", none⟩],
       Usage := ⟨1, 1, 2⟩ } : AIResponse).Choices.get? 0 =
      some ⟨0, TrimPrefix "Hello world" "Hello", "stop", none⟩ :=
  ⟨rfl,
   GenerateText_choice_shape 0 (fun _ => AttemptOutcome.httpResp 200 0) (fun _ => false)
     (fun _ => some [{ GeneratedText := "Hello world" }])
     { ID := "1", Model := "gpt2", Prompt := "Hello", MaxTokens := 10,
       Temperature := 1, TopP := 1, Parameters := [] }
     0 { GeneratedText := "Hello world" } []
     { ID := "1", Model := "gpt2",
       Choices := [⟨0, " world", "stop", none⟩],
       Usage := ⟨1, 1, 2⟩ }
     0 { GeneratedText := "Hello world" }
     rfl rfl rfl rfl rfl⟩

/-- C6: every generation result returned successfully satisfies
`total_tokens = prompt_tokens + completion_tokens`, with
`prompt_tokens = ⌊len(prompt)/4⌋` and `total_tokens` the sum over all
choices of `⌊(len(prompt) + len(choice text))/4⌋`. -/
theorem GenerateText_usage_equation {β : Type} (retryAttempts : Nat)
    (upstream : Nat → AttemptOutcome β) (cancelAt : Nat → Bool)
    (decode : β → Option (List HuggingFaceResponse)) (req : AIRequest) (resp : AIResponse)
    (hok : (GenerateText retryAttempts upstream cancelAt decode req).result = .ok resp) :
    resp.Usage.TotalTokens = resp.Usage.PromptTokens + resp.Usage.CompletionTokens ∧
    resp.Usage.PromptTokens = ((req.Prompt.length / 4 : Nat) : Int) ∧
    resp.Usage.TotalTokens =
      ((resp.Choices.foldl (fun acc c => acc + (req.Prompt.length + c.Text.length) / 4) 0 :
        Nat) : Int) := by
  unfold GenerateText at hok
  split at hok
  · simp at hok
  · split at hok
    · simp at hok
    · split at hok
      · simp at hok
      · simp at hok
      · simp only [Except.ok.injEq] at hok
        subst hok
        refine ⟨?_, rfl, ?_⟩
        · dsimp only
          omega
        · dsimp only
          rw [buildChoices, choices_token_sum req.Prompt _ 0 0]
          rfl

theorem GenerateText_usage_equation_witness :
    ((GenerateText 0 (fun _ => AttemptOutcome.httpResp 200 0) (fun _ => false)
        (fun _ => some [{ GeneratedText := "Hi there!" }])
        { ID := "1", Model := "gpt2", Prompt := "Hi", MaxTokens := 10,
          Temperature := 1, TopP := 1, Parameters := [] }).result =
      .ok { ID := "1", Model := "gpt2",
            Choices := [⟨0, " there!", "stop", none⟩],
            Usage := ⟨0, 2, 2⟩ }) ∧
    ((2 : Int) = 0 + 2 ∧
     (0 : Int) = (("Hi".length / 4 : Nat) : Int) ∧
     (2 : Int) =
       (([(⟨0, " there!", "stop", none⟩ : Choice)].foldl
          (fun acc c => acc + ("Hi".length + c.Text.length) / 4) 0 : Nat) : Int)) :=
  ⟨rfl,
   GenerateText_usage_equation 0 (fun _ => AttemptOutcome.httpResp 200 0) (fun _ => false)
     (fun _ => some [{ GeneratedText := "Hi there!" }])
     { ID := "1", Model := "gpt2", Prompt := "Hi", MaxTokens := 10,
       Temperature := 1, TopP := 1, Parameters := [] }
     { ID := "1", Model := "gpt2",
       Choices := [⟨0, " there!", "stop", none⟩],
       Usage := ⟨0, 2, 2⟩ }
     rfl⟩

/-- Does the service result carry a validation error? -/
def isValidationFailure {β ρ : Type} : Except (SvcError β) ρ → Bool
  | .error (.validation _) => true
  | _ => false

theorem GenerateText_validation_err {β : Type} (retryAttempts : Nat)
    (upstream : Nat → AttemptOutcome β) (cancelAt : Nat → Bool)
    (decode : β → Option (List HuggingFaceResponse)) (req : AIRequest) (e : ErrorResponse)
    (hv : req.Validate = some e) :
    GenerateText retryAttempts upstream cancelAt decode req =
      ⟨0, none, .error (.validation e)⟩ := by
  unfold GenerateText
  simp only [hv]

theorem Validate_some_of_bad (req : AIRequest)
    (hbad : req.Prompt = "" ∨ req.Model = "" ∨ req.Temperature < 0 ∨ req.Temperature > 1) :
    ∃ e, req.Validate = some e := by
  unfold AIRequest.Validate
  by_cases h1 : req.Prompt = ""
  · rw [if_pos h1]; exact ⟨_, rfl⟩
  · rw [if_neg h1]
    by_cases h2 : req.Model = ""
    · rw [if_pos h2]; exact ⟨_, rfl⟩
    · rw [if_neg h2]
      by_cases h3 : req.MaxTokens < 0
      · rw [if_pos h3]; exact ⟨_, rfl⟩
      · rw [if_neg h3]
        have h4 : req.Temperature < 0 ∨ req.Temperature > 1 := by tauto
        rw [if_pos h4]; exact ⟨_, rfl⟩

/-- C7: for a request with an empty prompt or empty model name, or a
temperature outside [0, 1], `GenerateText` fails validation: no
network attempt is made, no payload is built, and the result is a
validation error.  When the temperature check is the one that fires
(prompt and model non-empty and max tokens non-negative — note the Go
code checks max tokens before temperature), the error carries the
fixed message "temperature must be between 0 and 1". -/
theorem GenerateText_validation_no_network {β : Type} (retryAttempts : Nat)
    (upstream : Nat → AttemptOutcome β) (cancelAt : Nat → Bool)
    (decode : β → Option (List HuggingFaceResponse)) (req : AIRequest)
    (hbad : req.Prompt = "" ∨ req.Model = "" ∨ req.Temperature < 0 ∨ req.Temperature > 1) :
    (GenerateText retryAttempts upstream cancelAt decode req).networkAttempts = 0 ∧
    (GenerateText retryAttempts upstream cancelAt decode req).sentPayload = none ∧
    isValidationFailure (GenerateText retryAttempts upstream cancelAt decode req).result =
      true ∧
    (req.Prompt ≠ "" → req.Model ≠ "" → ¬req.MaxTokens < 0 →
      (GenerateText retryAttempts upstream cancelAt decode req).result =
        .error (.validation ⟨400, "temperature must be between 0 and 1",
          "validation_error"⟩)) := by
  obtain ⟨e, hv⟩ := Validate_some_of_bad req hbad
  rw [GenerateText_validation_err retryAttempts upstream cancelAt decode req e hv]
  refine ⟨rfl, rfl, rfl, ?_⟩
  intro h1 h2 h3
  have hv2 : req.Validate =
      some ⟨400, "temperature must be between 0 and 1", "validation_error"⟩ := by
    unfold AIRequest.Validate
    rw [if_neg h1, if_neg h2, if_neg h3, if_pos (by tauto)]
  rw [hv] at hv2
  simp only [Option.some.injEq] at hv2
  rw [hv2]

theorem GenerateText_validation_no_network_witness :
    ("Hi" = "" ∨ "gpt2" = "" ∨ (2 : Rat) < 0 ∨ (2 : Rat) > 1) ∧
    ((GenerateText 3 (fun _ => AttemptOutcome.httpResp 200 "body") (fun _ => false)
        (fun _ => some [])
        { ID := "1", Model := "gpt2", Prompt := "Hi", MaxTokens := 5,
          Temperature := 2, TopP := 1, Parameters := [] }).networkAttempts = 0 ∧
     (GenerateText 3 (fun _ => AttemptOutcome.httpResp 200 "body") (fun _ => false)
        (fun _ => some [])
        { ID := "1", Model := "gpt2", Prompt := "Hi", MaxTokens := 5,
          Temperature := 2, TopP := 1, Parameters := [] }).sentPayload = none ∧
     isValidationFailure (GenerateText 3 (fun _ => AttemptOutcome.httpResp 200 "body")
        (fun _ => false) (fun _ => some [])
        { ID := "1", Model := "gpt2", Prompt := "Hi", MaxTokens := 5,
          Temperature := 2, TopP := 1, Parameters := [] }).result = true ∧
     ("Hi" ≠ "" → "gpt2" ≠ "" → ¬(5 : Int) < 0 →
       (GenerateText 3 (fun _ => AttemptOutcome.httpResp 200 "body") (fun _ => false)
          (fun _ => some [])
          { ID := "1", Model := "gpt2", Prompt := "Hi", MaxTokens := 5,
            Temperature := 2, TopP := 1, Parameters := [] }).result =
         .error (.validation ⟨400, "temperature must be between 0 and 1",
           "validation_error"⟩))) :=
  ⟨Or.inr (Or.inr (Or.inr (by decide))),
   GenerateText_validation_no_network 3 (fun _ => AttemptOutcome.httpResp 200 "body")
     (fun _ => false) (fun _ => some [])
     { ID := "1", Model := "gpt2", Prompt := "Hi", MaxTokens := 5,
       Temperature := 2, TopP := 1, Parameters := [] }
     (Or.inr (Or.inr (Or.inr (by decide))))⟩

/-- C8: for input text of positive length and a 200 response decoding
to a non-empty array, `SummarizeText` returns only the summary of the
first element (later elements ignored) with compression equal to the
summary length divided by the input length.  (`hlen` restricts the
statement to the scope of the claim; the `Rat` model makes the division
total, while the Go code divides `float64`s with no guard for empty
input.) -/
theorem SummarizeText_first_element {β : Type} (retryAttempts : Nat)
    (upstream : Nat → AttemptOutcome β) (cancelAt : Nat → Bool)
    (decode : β → Option (List HuggingFaceResponse)) (text : String) (maxLength : Int)
    (body : β) (first : HuggingFaceResponse) (rest : List HuggingFaceResponse)
    (hlen : 0 < text.length)
    (hm : (makeRequest retryAttempts upstream cancelAt).result = .ok body)
    (hd : decode body = some (first :: rest)) :
    (SummarizeText retryAttempts upstream cancelAt decode text maxLength).result =
      .ok ⟨text, first.SummaryText,
        (first.SummaryText.length : Rat) / (text.length : Rat)⟩ := by
  unfold SummarizeText
  simp only [hm, hd]

theorem SummarizeText_first_element_witness :
    0 < "abcdefgh".length ∧
    (SummarizeText 0 (fun _ => AttemptOutcome.httpResp 200 0) (fun _ => false)
        (fun _ => some [{ SummaryText := "abc" }, { SummaryText := "ignored" }])
        "abcdefgh" 40).result =
      .ok ⟨"abcdefgh", "abc", (("abc".length : Nat) : Rat) / (("abcdefgh".length : Nat) : Rat)⟩ :=
  ⟨by decide,
   SummarizeText_first_element 0 (fun _ => AttemptOutcome.httpResp 200 0) (fun _ => false)
     (fun _ => some [{ SummaryText := "abc" }, { SummaryText := "ignored" }])
     "abcdefgh" 40 0 { SummaryText := "abc" } [{ SummaryText := "ignored" }]
     (by decide) rfl rfl⟩

theorem overlayParams_not_mem :
    ∀ (l : List (String × ParamValue)) (base : String → Option ParamValue) (k : String),
      k ∉ l.map Prod.fst → overlayParams base l k = base k := by
  intro l
  induction l with
  | nil => intro base k _; rfl
  | cons p rest ih =>
    obtain ⟨k0, v0⟩ := p
    intro base k hk
    simp only [List.map_cons, List.mem_cons, not_or] at hk
    rw [overlayParams, ih _ k hk.2, setParam, if_neg hk.1]

theorem overlayParams_mem :
    ∀ (l : List (String × ParamValue)) (base : String → Option ParamValue) (k : String)
      (v : ParamValue), (l.map Prod.fst).Nodup → (k, v) ∈ l →
      overlayParams base l k = some v := by
  intro l
  induction l with
  | nil => intro base k v _ h; simp at h
  | cons p rest ih =>
    obtain ⟨k0, v0⟩ := p
    intro base k v hnd hmem
    simp only [List.map_cons, List.nodup_cons] at hnd
    rcases List.mem_cons.mp hmem with heq | hmem2
    · obtain ⟨rfl, rfl⟩ := Prod.mk.injEq k v k0 v0 ▸ heq
      rw [overlayParams, overlayParams_not_mem rest _ k hnd.1, setParam, if_pos rfl]
    · rw [overlayParams]
      exact ih _ k v hnd.2 hmem2

/-- Modelled from the spec claim (C9): a single merged parameter map
that starts from the base set
`{max_new_tokens, temperature, top_p, wait_for_model: true}` and
overlays every caller-supplied extra parameter, the caller value
taking precedence on any key collision with the base set.  This
renders the wording of the claim; the `buildHFRequest` of the code
differs:
its `Parameters` base has only the three generation keys, while
`wait_for_model: true` sits in the separate `Options` map that the
merge loop never touches. -/
def claimedBaseParameters (req : AIRequest) : String → Option ParamValue := fun k =>
  if k = "max_new_tokens" then some (.int req.MaxTokens)
  else if k = "temperature" then some (.rat req.Temperature)
  else if k = "top_p" then some (.rat req.TopP)
  else if k = "wait_for_model" then some (.bool true)
  else none

def claimedMergedParameters (req : AIRequest) : String → Option ParamValue :=
  overlayParams (claimedBaseParameters req) req.Parameters

theorem buildHFRequest_params_counterexample :
    (buildHFRequest { ID := "1", Model := "gpt2", Prompt := "Hi", MaxTokens := 5, Temperature := 1, TopP := 1, Parameters := [] }).Parameters "wait_for_model" = none ∧
    claimedMergedParameters { ID := "1", Model := "gpt2", Prompt := "Hi", MaxTokens := 5, Temperature := 1, TopP := 1, Parameters := [] } "wait_for_model" = some (.bool true) ∧
    (buildHFRequest { ID := "1", Model := "gpt2", Prompt := "Hi", MaxTokens := 5, Temperature := 1, TopP := 1, Parameters := [("wait_for_model", ParamValue.bool false)] }).Options "wait_for_model" = some (.bool true) :=
  ⟨rfl, rfl, rfl⟩

/-- C9 (amended): the `parameters` field of the payload starts from the
fixed base set `{max_new_tokens, temperature, top_p}` with every
caller-supplied extra parameter overlaid on top (the caller value
taking precedence on key collision, assuming the caller keys are
distinct, as they are for a decoded JSON object); `wait_for_model:
true` is sent in the separate `options` field of the payload, which caller
parameters never affect; and this payload is exactly what a validated
`GenerateText` call hands to the transport. -/
theorem buildHFRequest_params_amended {β : Type} (retryAttempts : Nat)
    (upstream : Nat → AttemptOutcome β) (cancelAt : Nat → Bool)
    (decode : β → Option (List HuggingFaceResponse)) (req : AIRequest)
    (hnd : (req.Parameters.map Prod.fst).Nodup) :
    (∀ k v, (k, v) ∈ req.Parameters → (buildHFRequest req).Parameters k = some v) ∧
    (∀ k, k ∉ req.Parameters.map Prod.fst →
      (buildHFRequest req).Parameters k = baseParameters req k) ∧
    ((buildHFRequest req).Options "wait_for_model" = some (.bool true) ∧
      ∀ k, k ≠ "wait_for_model" → (buildHFRequest req).Options k = none) ∧
    (req.Validate = none →
      (GenerateText retryAttempts upstream cancelAt decode req).sentPayload =
        some (buildHFRequest req)) := by
  refine ⟨fun k v hkv => overlayParams_mem _ _ k v hnd hkv,
          fun k hk => overlayParams_not_mem _ _ k hk,
          ⟨rfl, fun k hk => ?_⟩, fun hv => ?_⟩
  · simp only [buildHFRequest]
    rw [if_neg hk]
  · unfold GenerateText
    rcases hr : (makeRequest retryAttempts upstream cancelAt).result with e | b
    · simp only [hv, hr]
    · simp only [hv, hr]
      rcases hd : decode b with _ | l
      · simp only [hd]
      · rcases l with _ | ⟨r0, rs⟩ <;> simp only [hd]

theorem buildHFRequest_params_amended_witness :
    (([("wait_for_model", ParamValue.bool false)].map Prod.fst).Nodup) ∧
    ((∀ k v, (k, v) ∈ [("wait_for_model", ParamValue.bool false)] →
       (buildHFRequest { ID := "1", Model := "gpt2", Prompt := "Hi", MaxTokens := 5, Temperature := 1, TopP := 1, Parameters := [("wait_for_model", ParamValue.bool false)] }).Parameters k = some v) ∧
     (∀ k, k ∉ [("wait_for_model", ParamValue.bool false)].map Prod.fst →
       (buildHFRequest { ID := "1", Model := "gpt2", Prompt := "Hi", MaxTokens := 5, Temperature := 1, TopP := 1, Parameters := [("wait_for_model", ParamValue.bool false)] }).Parameters k =
         baseParameters { ID := "1", Model := "gpt2", Prompt := "Hi", MaxTokens := 5, Temperature := 1, TopP := 1, Parameters := [("wait_for_model", ParamValue.bool false)] } k) ∧
     ((buildHFRequest { ID := "1", Model := "gpt2", Prompt := "Hi", MaxTokens := 5, Temperature := 1, TopP := 1, Parameters := [("wait_for_model", ParamValue.bool false)] }).Options "wait_for_model" = some (.bool true) ∧
       ∀ k, k ≠ "wait_for_model" →
         (buildHFRequest { ID := "1", Model := "gpt2", Prompt := "Hi", MaxTokens := 5, Temperature := 1, TopP := 1, Parameters := [("wait_for_model", ParamValue.bool false)] }).Options k = none) ∧
     (({ ID := "1", Model := "gpt2", Prompt := "Hi", MaxTokens := 5, Temperature := 1, TopP := 1, Parameters := [("wait_for_model", ParamValue.bool false)] } : AIRequest).Validate = none →
       (GenerateText 0 (fun _ => AttemptOutcome.httpResp 200 "body") (fun _ => false)
         (fun _ => some [])
         { ID := "1", Model := "gpt2", Prompt := "Hi", MaxTokens := 5, Temperature := 1, TopP := 1, Parameters := [("wait_for_model", ParamValue.bool false)] }).sentPayload =
         some (buildHFRequest { ID := "1", Model := "gpt2", Prompt := "Hi", MaxTokens := 5, Temperature := 1, TopP := 1, Parameters := [("wait_for_model", ParamValue.bool false)] }))) :=
  ⟨by decide,
   buildHFRequest_params_amended 0 (fun _ => AttemptOutcome.httpResp 200 "body")
     (fun _ => false) (fun _ => some [])
     { ID := "1", Model := "gpt2", Prompt := "Hi", MaxTokens := 5, Temperature := 1, TopP := 1, Parameters := [("wait_for_model", ParamValue.bool false)] }
     (by decide)⟩

/-- C10: `GenerateCompletion` is extensionally equal to
`GenerateText`: on every context (oracle, cancellation signal,
decoder) and every request the two return the identical run. -/
theorem GenerateCompletion_eq_GenerateText {β : Type} (retryAttempts : Nat)
    (upstream : Nat → AttemptOutcome β) (cancelAt : Nat → Bool)
    (decode : β → Option (List HuggingFaceResponse)) (req : AIRequest) :
    GenerateCompletion retryAttempts upstream cancelAt decode req =
      GenerateText retryAttempts upstream cancelAt decode req := rfl
